import Mathlib

/-!
Shallow embedding of the two-stage company-intelligence pipeline
(`DataCollectorAgent`, `AnalystAgent`, `OrchestratorAgent`, and the
process entry point) from
`Multi_Agent_Company_Intelligence_System_with_Error_Handling_2026_01_29T05_50_27.py`.

The language-model backend (the `prompt | llm` chain each agent invokes)
is modelled as a pair of functions from the stage's sole template
variable to `Except String String`: `Except.ok t` is a completed call
returning text `t`, `Except.error e` is a raised provider fault with
message `e`.  Stage and orchestrator methods are translated clause by
clause from the source; backend invocation counts and the orchestrator's
mutable `ConversationBufferMemory` are threaded explicitly.
-/

namespace CompanyIntel

/-- A Python value passed as the `company` argument: the source guards
`not company or not isinstance(company, str)`, so we keep strings plus
representative non-string values (`None` and an integer). -/
inductive PyVal where
  | vstr (s : String)
  | vnone
  | vint (n : Int)
deriving DecidableEq, Repr

/-- Python truthiness of the modelled values: `""`, `None` and `0` are
falsy. -/
def PyVal.truthy : PyVal → Bool
  | .vstr s => !(s == "")
  | .vnone => false
  | .vint n => !(n == 0)

/-- `isinstance(v, str)` for the modelled values. -/
def PyVal.isStr : PyVal → Bool
  | .vstr _ => true
  | .vnone => false
  | .vint _ => false

/-- A stage's return value: either the model's text (`response.content`)
or the source's `\x7b"error": msg\x7d` dictionary. -/
inductive StageOut where
  | content (s : String)
  | errorDict (msg : String)
deriving DecidableEq, Repr

/-- The model backend seen through the two agents' prompt chains.
`invokeCollector` receives the collector template's `company` variable,
`invokeAnalyst` the analyst template's `company_data` variable; a
`.error` result models an exception raised by `chain.invoke`. -/
structure ModelBackend where
  invokeCollector : String → Except String String
  invokeAnalyst : String → Except String String

/-- `DataCollectorAgent.run` (source lines 45-56).  Returns the stage
result together with the number of backend invocations made (an
invocation that raises still counts as one call). -/
def dataCollectorRun (bk : ModelBackend) (company : PyVal) : StageOut × Nat :=
  match company with
  | .vstr s =>
    if s = "" then (.errorDict "Invalid company name provided", 0)
    else
      match bk.invokeCollector s with
      | .ok response => (.content response, 1)
      | .error e => (.errorDict ("Error collecting data for " ++ s ++ ": " ++ e), 1)
  | _ => (.errorDict "Invalid company name provided", 0)

/-- `AnalystAgent.run` (source lines 82-93).  The orchestrator only ever
passes it a string, and its guard is plain truthiness (`not
company_data`), i.e. emptiness for strings. -/
def analystRun (bk : ModelBackend) (company_data : String) : StageOut × Nat :=
  if company_data = "" then (.errorDict "No company data provided for analysis", 0)
  else
    match bk.invokeAnalyst company_data with
    | .ok response => (.content response, 1)
    | .error e => (.errorDict ("Error analyzing company data: " ++ e), 1)

/-- One `save_context` record of the orchestrator's
`ConversationBufferMemory`: the saved input description and output text. -/
structure LogEntry where
  input : String
  output : String
deriving DecidableEq, Repr

/-- The dictionary `OrchestratorAgent.run` returns.  `error = none`
models an absent `"error"` key (the success dictionary has none), and
`memory = none` models an absent `"memory"` key (only the success
dictionary carries `load_memory_variables`' content). -/
structure RunResult where
  company : Option String
  raw_data : Option String
  analysis : Option String
  error : Option String
  memory : Option (List LogEntry)
deriving DecidableEq, Repr

/-- The transcript entries carried by a returned `RunResult`: the
content of its `memory` key, empty when the key is absent. -/
def RunResult.transcript (r : RunResult) : List LogEntry :=
  r.memory.getD []

/-- `OrchestratorAgent` state: its `ConversationBufferMemory`, created
empty at construction (source line 103) and never reset by `run`. -/
structure OrchestratorAgent where
  memory : List LogEntry
deriving DecidableEq, Repr

/-- A freshly constructed `OrchestratorAgent` (empty memory). -/
def OrchestratorAgent.mk0 : OrchestratorAgent := ⟨[]⟩

/-- Everything observable about one `OrchestratorAgent.run` call: the
returned dictionary, the orchestrator state afterwards, the backend
call counts of each stage, and whether `AnalystAgent.run` was called. -/
structure RunOutcome where
  result : RunResult
  agent : OrchestratorAgent
  collectorCalls : Nat
  analystCalls : Nat
  analystInvoked : Bool
deriving Repr

/-- `OrchestratorAgent.run` (source lines 109-168), translated branch by
branch: validate `company`; run the collector and short-circuit on its
error dictionary; `save_context` the collected data; run the analyst and
short-circuit on its error dictionary; `save_context` the analysis and
return the success dictionary whose `memory` key holds
`load_memory_variables` (the full memory, prior runs included).  The
source's final `except Exception` clause is unreachable here because
every fault of the embedded callees is already returned as data. -/
def OrchestratorAgent.run (o : OrchestratorAgent) (bk : ModelBackend)
    (company : PyVal) : RunOutcome :=
  match company with
  | .vstr s =>
    if s = "" then
      { result := { company := none, raw_data := none, analysis := none,
                    error := some "Invalid company name provided", memory := none },
        agent := o, collectorCalls := 0, analystCalls := 0, analystInvoked := false }
    else
      match dataCollectorRun bk (.vstr s) with
      | (.errorDict e, n) =>
        { result := { company := some s, raw_data := none, analysis := none,
                      error := some e, memory := none },
          agent := o, collectorCalls := n, analystCalls := 0, analystInvoked := false }
      | (.content d, n) =>
        match analystRun bk d with
        | (.errorDict e, m) =>
          { result := { company := some s, raw_data := some d, analysis := none,
                        error := some e, memory := none },
            agent := ⟨o.memory ++ [⟨"Collected data for " ++ s, d⟩]⟩,
            collectorCalls := n, analystCalls := m, analystInvoked := true }
        | (.content a, m) =>
          { result := { company := some s, raw_data := some d, analysis := some a,
                        error := none,
                        memory := some (o.memory ++ [⟨"Collected data for " ++ s, d⟩,
                                                     ⟨"Analyze company data", a⟩]) },
            agent := ⟨o.memory ++ [⟨"Collected data for " ++ s, d⟩,
                                   ⟨"Analyze company data", a⟩]⟩,
            collectorCalls := n, analystCalls := m, analystInvoked := true }
  | _ =>
    { result := { company := none, raw_data := none, analysis := none,
                  error := some "Invalid company name provided", memory := none },
      agent := o, collectorCalls := 0, analystCalls := 0, analystInvoked := false }

/-- Terminal condition of the `__main__` block (source lines 171-211):
it either completes normally, is interrupted by the user
(`KeyboardInterrupt`), or hits any other unhandled exception. -/
inductive MainFault where
  | success
  | keyboardInterrupt
  | fatal (msg : String)
deriving DecidableEq, Repr

/-- Process exit code of the `__main__` block per terminal condition:
normal completion falls off the end (exit 0); the `except
KeyboardInterrupt` clause (source lines 204-207) only prints
"Process interrupted by user" and falls through, so the process also
exits 0; the `except Exception` clause (source lines 208-211) prints a
fatal-error line and calls `exit(1)`. -/
def mainExitCode : MainFault → Nat
  | .success => 0
  | .keyboardInterrupt => 0
  | .fatal _ => 1

/-- A backend built from two pure functions that always complete. -/
def okBackend (F G : String → String) : ModelBackend :=
  ⟨fun s => .ok (F s), fun s => .ok (G s)⟩

/-- A backend that always completes, returning fixed non-empty texts. -/
def constBackend : ModelBackend :=
  okBackend (fun _ => "DATA") (fun _ => "ANALYSIS")

/-- A backend that always completes, but with empty output. -/
def emptyOkBackend : ModelBackend := okBackend (fun _ => "") (fun _ => "")

/-- A backend whose collection call always raises. -/
def failCollectBackend : ModelBackend :=
  ⟨fun _ => .error "boom", fun s => .ok s⟩

/-- A backend whose collection call succeeds and whose analysis call
always raises. -/
def failAnalyzeBackend : ModelBackend :=
  ⟨fun _ => .ok "DATA", fun _ => .error "bust"⟩

/-- A backend that raises on both calls. -/
def failBothBackend : ModelBackend :=
  ⟨fun _ => .error "boom", fun _ => .error "bust"⟩

/-- Claim C1, counterexample: the backend `emptyOkBackend` always
succeeds (every call returns `Except.ok`), yet `run "Acme"` returns a
set `error` and a null `analysis`, because the collection call's empty
output fails the analyst's `not company_data` guard.  So "backend always
succeeds" alone does not give an error-free run. -/
theorem claim1_cex :
    (OrchestratorAgent.mk0.run emptyOkBackend (.vstr "Acme")).result.error =
      some "No company data provided for analysis" ∧
    (OrchestratorAgent.mk0.run emptyOkBackend (.vstr "Acme")).result.analysis = none := by
  decide

/-- Claim C1 (amended): for every non-empty string company, when the
backend's collection call succeeds with non-empty output and its
analysis call succeeds, `OrchestratorAgent.run` returns `error` absent,
`raw_data` and `analysis` set, and a transcript of exactly the two
entries in order: collection first, then analysis. -/
theorem claim1_amended (bk : ModelBackend) (s d a : String)
    (hs : s ≠ "") (hC : bk.invokeCollector s = .ok d) (hd : d ≠ "")
    (hA : bk.invokeAnalyst d = .ok a) :
    (OrchestratorAgent.mk0.run bk (.vstr s)).result.error = none ∧
    (OrchestratorAgent.mk0.run bk (.vstr s)).result.raw_data = some d ∧
    (OrchestratorAgent.mk0.run bk (.vstr s)).result.analysis = some a ∧
    (OrchestratorAgent.mk0.run bk (.vstr s)).result.transcript =
      [⟨"Collected data for " ++ s, d⟩, ⟨"Analyze company data", a⟩] := by
  simp [OrchestratorAgent.run, OrchestratorAgent.mk0, dataCollectorRun, analystRun,
    RunResult.transcript, hs, hC, hd, hA]

/-- Witness for `claim1_amended` at a concrete backend and company. -/
theorem claim1_amended_witness :
    (OrchestratorAgent.mk0.run constBackend (.vstr "Acme")).result.error = none ∧
    (OrchestratorAgent.mk0.run constBackend (.vstr "Acme")).result.raw_data = some "DATA" ∧
    (OrchestratorAgent.mk0.run constBackend (.vstr "Acme")).result.analysis = some "ANALYSIS" ∧
    (OrchestratorAgent.mk0.run constBackend (.vstr "Acme")).result.transcript =
      [⟨"Collected data for " ++ "Acme", "DATA"⟩, ⟨"Analyze company data", "ANALYSIS"⟩] :=
  claim1_amended constBackend "Acme" "DATA" "ANALYSIS" (by decide) rfl (by decide) rfl

/-- Claim C2: for `company = ""` or any non-string value,
`OrchestratorAgent.run` returns `error` set, `raw_data = none`,
`analysis = none`, an empty transcript (the result carries no memory
entries), the orchestrator state is unchanged, and neither stage makes a
backend call. -/
theorem claim2 (bk : ModelBackend) (o : OrchestratorAgent) (v : PyVal)
    (h : v = .vstr "" ∨ v.isStr = false) :
    (o.run bk v).result.error = some "Invalid company name provided" ∧
    (o.run bk v).result.raw_data = none ∧
    (o.run bk v).result.analysis = none ∧
    (o.run bk v).result.transcript = [] ∧
    (o.run bk v).collectorCalls = 0 ∧
    (o.run bk v).analystCalls = 0 ∧
    (o.run bk v).agent = o := by
  rcases h with h | h
  · subst h
    simp [OrchestratorAgent.run, RunResult.transcript]
  · cases v with
    | vstr s => simp [PyVal.isStr] at h
    | vnone => simp [OrchestratorAgent.run, RunResult.transcript]
    | vint n => simp [OrchestratorAgent.run, RunResult.transcript]

/-- Witness for `claim2` at `company = ""`. -/
theorem claim2_witness :
    (OrchestratorAgent.mk0.run constBackend (.vstr "")).result.error =
      some "Invalid company name provided" ∧
    (OrchestratorAgent.mk0.run constBackend (.vstr "")).result.raw_data = none ∧
    (OrchestratorAgent.mk0.run constBackend (.vstr "")).result.analysis = none ∧
    (OrchestratorAgent.mk0.run constBackend (.vstr "")).result.transcript = [] ∧
    (OrchestratorAgent.mk0.run constBackend (.vstr "")).collectorCalls = 0 ∧
    (OrchestratorAgent.mk0.run constBackend (.vstr "")).analystCalls = 0 ∧
    (OrchestratorAgent.mk0.run constBackend (.vstr "")).agent = OrchestratorAgent.mk0 :=
  claim2 constBackend OrchestratorAgent.mk0 (.vstr "") (Or.inl rfl)

/-- Claim C3: whenever the collection stage returns an error dictionary,
`OrchestratorAgent.run` returns `raw_data = none`, `analysis = none`,
`error` = that failure message, an empty transcript, leaves the
orchestrator state unchanged, and never invokes the analysis stage. -/
theorem claim3 (bk : ModelBackend) (o : OrchestratorAgent) (v : PyVal)
    (e : String) (n : Nat)
    (h : dataCollectorRun bk v = (.errorDict e, n)) :
    (o.run bk v).result.raw_data = none ∧
    (o.run bk v).result.analysis = none ∧
    (o.run bk v).result.error = some e ∧
    (o.run bk v).result.transcript = [] ∧
    (o.run bk v).analystInvoked = false ∧
    (o.run bk v).agent = o := by
  cases v with
  | vstr s =>
    by_cases hs : s = ""
    · subst hs
      simp [dataCollectorRun] at h
      simp [OrchestratorAgent.run, RunResult.transcript, h.1]
    · simp [OrchestratorAgent.run, RunResult.transcript, hs, h]
  | vnone =>
    simp [dataCollectorRun] at h
    simp [OrchestratorAgent.run, RunResult.transcript, h.1]
  | vint k =>
    simp [dataCollectorRun] at h
    simp [OrchestratorAgent.run, RunResult.transcript, h.1]

/-- Witness for `claim3`: a backend whose collection call raises. -/
theorem claim3_witness :
    (OrchestratorAgent.mk0.run failCollectBackend (.vstr "Acme")).result.raw_data = none ∧
    (OrchestratorAgent.mk0.run failCollectBackend (.vstr "Acme")).result.analysis = none ∧
    (OrchestratorAgent.mk0.run failCollectBackend (.vstr "Acme")).result.error =
      some ("Error collecting data for " ++ "Acme" ++ ": " ++ "boom") ∧
    (OrchestratorAgent.mk0.run failCollectBackend (.vstr "Acme")).result.transcript = [] ∧
    (OrchestratorAgent.mk0.run failCollectBackend (.vstr "Acme")).analystInvoked = false ∧
    (OrchestratorAgent.mk0.run failCollectBackend (.vstr "Acme")).agent = OrchestratorAgent.mk0 :=
  claim3 failCollectBackend OrchestratorAgent.mk0 (.vstr "Acme")
    ("Error collecting data for " ++ "Acme" ++ ": " ++ "boom") 1 (by decide)

/-- Claim C4, counterexample: with a backend whose collection succeeds
and whose analysis raises, the returned dictionary has `raw_data` and
`error` set but carries NO memory key, so the transcript it returns has
0 entries, not "exactly 1". -/
theorem claim4_cex :
    (OrchestratorAgent.mk0.run failAnalyzeBackend (.vstr "Acme")).result.raw_data =
      some "DATA" ∧
    (OrchestratorAgent.mk0.run failAnalyzeBackend (.vstr "Acme")).result.error =
      some ("Error analyzing company data: " ++ "bust") ∧
    (OrchestratorAgent.mk0.run failAnalyzeBackend (.vstr "Acme")).result.memory = none ∧
    (OrchestratorAgent.mk0.run failAnalyzeBackend (.vstr "Acme")).result.transcript.length ≠ 1 := by
  decide

/-- Claim C4 (amended): if collection succeeds producing `d` and the
analysis stage then fails, a fresh orchestrator's `run` returns
`raw_data = d`, `analysis = none`, `error` set to the failure message,
and a result without a transcript (`memory` key absent), while the
orchestrator's conversation log holds exactly one entry — the
collection entry. -/
theorem claim4_amended (bk : ModelBackend) (s d e : String) (m : Nat)
    (hs : s ≠ "") (hC : bk.invokeCollector s = .ok d)
    (hA : analystRun bk d = (.errorDict e, m)) :
    (OrchestratorAgent.mk0.run bk (.vstr s)).result.raw_data = some d ∧
    (OrchestratorAgent.mk0.run bk (.vstr s)).result.analysis = none ∧
    (OrchestratorAgent.mk0.run bk (.vstr s)).result.error = some e ∧
    (OrchestratorAgent.mk0.run bk (.vstr s)).result.memory = none ∧
    (OrchestratorAgent.mk0.run bk (.vstr s)).agent.memory =
      [⟨"Collected data for " ++ s, d⟩] := by
  simp [OrchestratorAgent.run, OrchestratorAgent.mk0, dataCollectorRun, hs, hC, hA]

/-- Witness for `claim4_amended` at a concrete backend and company. -/
theorem claim4_amended_witness :
    (OrchestratorAgent.mk0.run failAnalyzeBackend (.vstr "Soulpage IT Solutions")).result.raw_data =
      some "DATA" ∧
    (OrchestratorAgent.mk0.run failAnalyzeBackend (.vstr "Soulpage IT Solutions")).result.analysis =
      none ∧
    (OrchestratorAgent.mk0.run failAnalyzeBackend (.vstr "Soulpage IT Solutions")).result.error =
      some ("Error analyzing company data: " ++ "bust") ∧
    (OrchestratorAgent.mk0.run failAnalyzeBackend (.vstr "Soulpage IT Solutions")).result.memory =
      none ∧
    (OrchestratorAgent.mk0.run failAnalyzeBackend (.vstr "Soulpage IT Solutions")).agent.memory =
      [⟨"Collected data for " ++ "Soulpage IT Solutions", "DATA"⟩] :=
  claim4_amended failAnalyzeBackend "Soulpage IT Solutions" "DATA"
    ("Error analyzing company data: " ++ "bust") 1 (by decide) rfl (by decide)

/-- Claim C5: every `RunResult` the orchestrator returns satisfies the
invariant — if `error` is set then `raw_data` or `analysis` is null,
and if both data fields are populated (both stages succeeded) then the
`error` key is absent. -/
theorem claim5 (bk : ModelBackend) (o : OrchestratorAgent) (v : PyVal) :
    ((o.run bk v).result.error ≠ none →
      (o.run bk v).result.raw_data = none ∨ (o.run bk v).result.analysis = none) ∧
    ((o.run bk v).result.raw_data ≠ none ∧ (o.run bk v).result.analysis ≠ none →
      (o.run bk v).result.error = none) := by
  cases v with
  | vstr s =>
    by_cases hs : s = ""
    · simp [OrchestratorAgent.run, hs]
    · rcases hd : dataCollectorRun bk (.vstr s) with ⟨d | e, n⟩
      · rcases ha : analystRun bk d with ⟨a | e2, m⟩
        · simp [OrchestratorAgent.run, hs, hd, ha]
        · simp [OrchestratorAgent.run, hs, hd, ha]
      · simp [OrchestratorAgent.run, hs, hd]
  | vnone => simp [OrchestratorAgent.run]
  | vint k => simp [OrchestratorAgent.run]

/-- Witness for `claim5`: at a concrete successful run, both data
fields are populated, so the invariant forces `error = none`. -/
theorem claim5_witness :
    (OrchestratorAgent.mk0.run constBackend (.vstr "Acme")).result.error = none :=
  (claim5 constBackend OrchestratorAgent.mk0 (.vstr "Acme")).2 ⟨by decide, by decide⟩

/-- Claim C6: a backend fault raised during a stage's valid-input model
call is caught inside that stage and returned as an error dictionary
carrying the formatted message; both `dataCollectorRun` and
`analystRun` return it as a value (their return type is `StageOut`, so
no fault propagates to the caller). -/
theorem claim6 (bk : ModelBackend) (s d e1 e2 : String)
    (hs : s ≠ "") (hd : d ≠ "")
    (h1 : bk.invokeCollector s = .error e1)
    (h2 : bk.invokeAnalyst d = .error e2) :
    dataCollectorRun bk (.vstr s) =
      (.errorDict ("Error collecting data for " ++ s ++ ": " ++ e1), 1) ∧
    analystRun bk d = (.errorDict ("Error analyzing company data: " ++ e2), 1) := by
  constructor
  · simp [dataCollectorRun, hs, h1]
  · simp [analystRun, hd, h2]

/-- Witness for `claim6`: a backend that raises on both calls. -/
theorem claim6_witness :
    dataCollectorRun failBothBackend (.vstr "Acme") =
      (.errorDict ("Error collecting data for " ++ "Acme" ++ ": " ++ "boom"), 1) ∧
    analystRun failBothBackend "DATA" =
      (.errorDict ("Error analyzing company data: " ++ "bust"), 1) :=
  claim6 failBothBackend "Acme" "DATA" "boom" "bust" (by decide) (by decide) rfl rfl

/-- Claim C7, counterexample: on empty required input each stage does
return a failure dictionary without a backend call, but its message is
the stage-specific text, not the literal "invalid input" the claim
states. -/
theorem claim7_cex :
    dataCollectorRun constBackend (.vstr "") =
      (.errorDict "Invalid company name provided", 0) ∧
    analystRun constBackend "" =
      (.errorDict "No company data provided for analysis", 0) ∧
    "Invalid company name provided" ≠ "invalid input" ∧
    "No company data provided for analysis" ≠ "invalid input" := by
  decide

/-- Claim C7 (amended): for every backend, a missing (`None`) or empty
required input makes the collection stage return the failure
"Invalid company name provided" and the analysis stage the failure
"No company data provided for analysis", each with zero backend
calls. -/
theorem claim7_amended (bk : ModelBackend) :
    dataCollectorRun bk (.vstr "") = (.errorDict "Invalid company name provided", 0) ∧
    dataCollectorRun bk .vnone = (.errorDict "Invalid company name provided", 0) ∧
    analystRun bk "" = (.errorDict "No company data provided for analysis", 0) := by
  refine ⟨by simp [dataCollectorRun], rfl, by simp [analystRun]⟩

/-- Claim C8: with any fixed backend (a pure function of its inputs),
two `run "Acme"` calls on fresh orchestrator instances (empty memory)
return identical `RunResult` content. -/
theorem claim8 (bk : ModelBackend) (o1 o2 : OrchestratorAgent)
    (h1 : o1.memory = []) (h2 : o2.memory = []) :
    (o1.run bk (.vstr "Acme")).result = (o2.run bk (.vstr "Acme")).result := by
  obtain ⟨m1⟩ := o1
  obtain ⟨m2⟩ := o2
  simp only at h1 h2
  subst h1
  subst h2
  rfl

/-- Witness for `claim8` at a concrete backend. -/
theorem claim8_witness :
    (OrchestratorAgent.mk0.run constBackend (.vstr "Acme")).result =
      (OrchestratorAgent.mk0.run constBackend (.vstr "Acme")).result :=
  claim8 constBackend OrchestratorAgent.mk0 OrchestratorAgent.mk0 rfl rfl

/-- Claim C9, counterexample: the `except KeyboardInterrupt` clause of
the entry point only prints a notice and falls through, so an
interactive interruption ends the process with exit code 0, not 1. -/
theorem claim9_cex : mainExitCode MainFault.keyboardInterrupt ≠ 1 := by
  decide

/-- Claim C9 (amended): a fatal unhandled-category error terminates the
process with exit code 1, while a `KeyboardInterrupt` is caught, prints
a notice, and ends the process with exit code 0. -/
theorem claim9_amended (msg : String) :
    mainExitCode (.fatal msg) = 1 ∧ mainExitCode .keyboardInterrupt = 0 :=
  ⟨rfl, rfl⟩

/-- Claim C10: the orchestrator's memory is created at construction and
never reset by `run`: after a second successful `run` on the same
instance, the second result's memory holds the entries of both runs —
all four saved input/output pairs, the first run's two entries first —
while the first result's memory held only that run's two entries. -/
theorem claim10 (F G : String → String) (c : String)
    (hc : c ≠ "") (hF : F c ≠ "") :
    (OrchestratorAgent.mk0.run (okBackend F G) (.vstr c)).result.transcript =
      [⟨"Collected data for " ++ c, F c⟩, ⟨"Analyze company data", G (F c)⟩] ∧
    ((OrchestratorAgent.mk0.run (okBackend F G) (.vstr c)).agent.run (okBackend F G)
        (.vstr c)).result.transcript =
      [⟨"Collected data for " ++ c, F c⟩, ⟨"Analyze company data", G (F c)⟩,
       ⟨"Collected data for " ++ c, F c⟩, ⟨"Analyze company data", G (F c)⟩] := by
  simp [OrchestratorAgent.run, OrchestratorAgent.mk0, okBackend, dataCollectorRun,
    analystRun, RunResult.transcript, hc, hF]

/-- Witness for `claim10` at concrete backend functions and company. -/
theorem claim10_witness :
    (OrchestratorAgent.mk0.run (okBackend (fun _ => "DATA") (fun _ => "ANALYSIS"))
        (.vstr "Acme")).result.transcript =
      [⟨"Collected data for " ++ "Acme", "DATA"⟩, ⟨"Analyze company data", "ANALYSIS"⟩] ∧
    ((OrchestratorAgent.mk0.run (okBackend (fun _ => "DATA") (fun _ => "ANALYSIS"))
        (.vstr "Acme")).agent.run (okBackend (fun _ => "DATA") (fun _ => "ANALYSIS"))
        (.vstr "Acme")).result.transcript =
      [⟨"Collected data for " ++ "Acme", "DATA"⟩, ⟨"Analyze company data", "ANALYSIS"⟩,
       ⟨"Collected data for " ++ "Acme", "DATA"⟩, ⟨"Analyze company data", "ANALYSIS"⟩] :=
  claim10 (fun _ => "DATA") (fun _ => "ANALYSIS") "Acme" (by decide) (by decide)

end CompanyIntel
